import Mathlib

/-!
Verification of the metrics-aggregation core of the AISSA track-record
dashboard (`app.py`): the year-data loader `load_year_data` and the
aggregator `calculate_metrics`.

The embedding models parsed JSON documents as `JValue`, the Python
dynamic semantics of the operations the aggregator performs
(`dict.get`, `len`, the `in` operator, subscripting, `str()`, integer
accumulation, and the `re.findall(r'~?(\d+)', s)` digit extraction) as
total Lean functions into `Except PyErr`, and the aggregator itself as
a fold of per-year contributions, mirroring the source statement by
statement.  Objects are association lists; documents produced by
`json.load` have pairwise distinct keys, so first-match lookup agrees
with Python dict lookup.
-/

/-- A parsed JSON value, as produced by `json.load`.  Numbers are
modelled as integers (all numeric fields in the repository's data are
integers). -/
inductive JValue where
  | null : JValue
  | bool : Bool → JValue
  | num : Int → JValue
  | str : String → JValue
  | arr : List JValue → JValue
  | obj : List (String × JValue) → JValue

/-- The Python exceptions the aggregator can raise on ill-shaped data. -/
inductive PyErr where
  | typeError : PyErr
  | attributeError : PyErr
  | keyError : String → PyErr
deriving DecidableEq

/-- First-match association-list lookup (Python dict lookup for
documents with distinct keys). -/
def jlookup (kvs : List (String × JValue)) (k : String) : Option JValue :=
  (kvs.find? (fun kv => kv.fst == k)).map (fun kv => kv.snd)

/-- Python truthiness (`bool(v)`) of a parsed JSON value:
`None`, `False`, `0`, `""`, `[]`, `{}` are falsy. -/
def pyFalsy : JValue → Bool
  | .null => true
  | .bool b => !b
  | .num n => n == 0
  | .str s => s.isEmpty
  | .arr xs => xs.isEmpty
  | .obj kvs => kvs.isEmpty

/-- `v.get(k, dflt)`: defined on dicts, `AttributeError` otherwise. -/
def pyGet (v : JValue) (k : String) (dflt : JValue) : Except PyErr JValue :=
  match v with
  | .obj kvs => .ok ((jlookup kvs k).getD dflt)
  | _ => .error .attributeError

/-- `len(v)`: defined on strings, lists and dicts, `TypeError` otherwise. -/
def pyLen (v : JValue) : Except PyErr Int :=
  match v with
  | .str s => .ok (s.length : Int)
  | .arr xs => .ok (xs.length : Int)
  | .obj kvs => .ok (kvs.length : Int)
  | _ => .error .typeError

/-- Does the list of characters `needle` start the list `hay`? -/
def leadsWith : List Char → List Char → Bool
  | [], _ => true
  | _ :: _, [] => false
  | a :: as, b :: bs => a == b && leadsWith as bs

/-- Does the list of characters `needle` occur contiguously in `hay`? -/
def containsSeq (needle : List Char) : List Char → Bool
  | [] => needle.isEmpty
  | b :: bs => leadsWith needle (b :: bs) || containsSeq needle bs

/-- Python `needle in hay` on strings: substring containment. -/
def strContainsSub (needle hay : String) : Bool :=
  containsSeq needle.data hay.data

/-- Python `k in v` for a string key `k`: key membership for dicts,
element equality for lists (a list element equals the string `k` only
when it is that string), substring containment for strings,
`TypeError` otherwise. -/
def pyContains (k : String) (v : JValue) : Except PyErr Bool :=
  match v with
  | .obj kvs => .ok (jlookup kvs k).isSome
  | .arr xs => .ok (xs.any (fun e => match e with | .str s => s == k | _ => false))
  | .str s => .ok (strContainsSub k s)
  | _ => .error .typeError

/-- Python `v[k]` for a string key `k`: dict lookup (`KeyError` when
absent); `TypeError` on every other receiver (string and list indices
must be integers). -/
def pyIndexStr (v : JValue) (k : String) : Except PyErr JValue :=
  match v with
  | .obj kvs =>
    match jlookup kvs k with
    | some w => .ok w
    | none => .error (.keyError k)
  | _ => .error .typeError

/-- Python `total += v` for an integer accumulator: integers add their
value, booleans coerce to 0/1, everything else raises `TypeError`. -/
def pyToInt (v : JValue) : Except PyErr Int :=
  match v with
  | .num n => .ok n
  | .bool b => .ok (if b then 1 else 0)
  | _ => .error .typeError

/-- Python iteration `for x in v`: list elements, the characters of a
string (as one-character strings), the keys of a dict; `TypeError`
otherwise. -/
def pyIter (v : JValue) : Except PyErr (List JValue) :=
  match v with
  | .arr xs => .ok xs
  | .str s => .ok (s.data.map (fun c => .str (String.singleton c)))
  | .obj kvs => .ok (kvs.map (fun kv => .str kv.fst))
  | _ => .error .typeError

mutual

/-- Python `repr` of a parsed JSON value (container case of `str()`,
reached only for the retreat `participants` field).  Simplified: the
string case always uses single quotes and performs no escaping of
quotes, backslashes or non-printables; no counting depends on the
repr text, only on `str()` of plain strings, where `pyStr` is exact. -/
def pyRepr : JValue → String
  | .null => "None"
  | .bool true => "True"
  | .bool false => "False"
  | .num n => toString n
  | .str s => "'" ++ s ++ "'"
  | .arr xs => "[" ++ pyReprList xs ++ "]"
  | .obj kvs => "\x7b" ++ pyReprPairs kvs ++ "\x7d"

/-- Comma-separated reprs of the elements of a list. -/
def pyReprList : List JValue → String
  | [] => ""
  | [v] => pyRepr v
  | v :: vs => pyRepr v ++ ", " ++ pyReprList vs

/-- Comma-separated reprs of the entries of a dict. -/
def pyReprPairs : List (String × JValue) → String
  | [] => ""
  | [(k, v)] => "'" ++ k ++ "': " ++ pyRepr v
  | (k, v) :: kvs => "'" ++ k ++ "': " ++ pyRepr v ++ ", " ++ pyReprPairs kvs

end

/-- Python `str(v)` of a parsed JSON value. -/
def pyStr : JValue → String
  | .str s => s
  | .null => "None"
  | .bool true => "True"
  | .bool false => "False"
  | .num n => toString n
  | v => pyRepr v

/-- The zero code point of every run of Unicode decimal digits
(general category Nd, Unicode 14.0 as shipped with CPython 3.11);
every Nd block is ten consecutive code points with decimal values
0 through 9.  Python's `\d` on `str` matches exactly these characters
and `int()` parses each by its decimal value. -/
def ndDigitZeros : List Nat :=
  [48, 1632, 1776, 1984, 2406, 2534, 2662, 2790, 2918, 3046, 3174, 3302, 3430, 3558, 3664,
   3792, 3872, 4160, 4240, 6112, 6160, 6470, 6608, 6784, 6800, 6992, 7088, 7232, 7248, 42528,
   43216, 43264, 43472, 43504, 43600, 44016, 65296, 66720, 68912, 69734, 69872, 69942, 70096,
   70384, 70736, 70864, 71248, 71360, 71472, 71904, 72016, 72784, 73040, 73120, 92768, 92864,
   93008, 120782, 120792, 120802, 120812, 120822, 123200, 123632, 125264, 130032]

/-- The decimal value of a Unicode decimal digit (category Nd),
`none` for every other character. -/
def digitVal? (c : Char) : Option Nat :=
  (ndDigitZeros.find? (fun z => z ≤ c.toNat && c.toNat < z + 10)).map
    (fun z => c.toNat - z)

/-- Python's `\d` character class on `str`: any Unicode decimal
digit. -/
def isNdDigit (c : Char) : Bool :=
  (digitVal? c).isSome

/-- The first maximal run of Unicode decimal digits of a character
list. -/
def firstDigitRun : List Char → Option (List Char)
  | [] => none
  | c :: cs => if isNdDigit c then some (c :: cs.takeWhile isNdDigit) else firstDigitRun cs

/-- The value `int()` gives a run of Unicode decimal digits: each
digit contributes its decimal value in base 10 (so a mixed-script run
such as ARABIC-INDIC THREE followed by ASCII 7 parses as 37, as in
Python). -/
def digitsToNat (ds : List Char) : Nat :=
  ds.foldl (fun a c => a * 10 + (digitVal? c).getD 0) 0

/-- `re.findall(r'~?(\d+)', s)` followed by `int(numbers[0])`: the
captures are exactly the maximal runs of Unicode decimal digits of
`s` (the optional `~` never affects the capture), so the first
capture is the first maximal digit run, and `int` assembles its
digits' decimal values in base 10. -/
def firstNumber (s : String) : Option Nat :=
  (firstDigitRun s.data).map digitsToNat

/-- The fixed-shape aggregation result (the dict returned by
`calculate_metrics`). -/
structure Totals where
  total_courses : Int
  total_participants : Int
  total_research_papers : Int
  total_workshops_events : Int
  total_university_groups : Int
  total_individual_impacts : Int
deriving DecidableEq

def Totals.zero : Totals := ⟨0, 0, 0, 0, 0, 0⟩

def Totals.add (a b : Totals) : Totals :=
  ⟨a.total_courses + b.total_courses,
   a.total_participants + b.total_participants,
   a.total_research_papers + b.total_research_papers,
   a.total_workshops_events + b.total_workshops_events,
   a.total_university_groups + b.total_university_groups,
   a.total_individual_impacts + b.total_individual_impacts⟩

instance : Zero Totals := ⟨Totals.zero⟩

instance : Add Totals := ⟨Totals.add⟩

instance : AddCommMonoid Totals where
  add_assoc a b c := by
    show Totals.add (Totals.add a b) c = Totals.add a (Totals.add b c)
    simp only [Totals.add, Totals.mk.injEq]
    omega
  zero_add a := by
    show Totals.add Totals.zero a = a
    cases a
    simp only [Totals.add, Totals.zero, Totals.mk.injEq]
    omega
  add_zero a := by
    show Totals.add a Totals.zero = a
    cases a
    simp only [Totals.add, Totals.zero, Totals.mk.injEq]
    omega
  add_comm a b := by
    show Totals.add a b = Totals.add b a
    simp only [Totals.add, Totals.mk.injEq]
    omega
  nsmul := nsmulRec

/-- The three outcomes of opening and parsing a year's backing file
`data/{year}.json`: the file parses to a value, it does not exist
(`FileNotFoundError`), or it exists but is not valid JSON
(`json.JSONDecodeError`). -/
inductive LoadResult where
  | ok : JValue → LoadResult
  | notFound : LoadResult
  | corrupt : LoadResult

/-- The diagnostic `load_year_data` emits via `st.error` when the file
is missing. -/
def msgNotFound (year : String) : String :=
  "Data file for year " ++ year ++ " not found"

/-- The diagnostic `load_year_data` emits via `st.error` when the file
fails to parse. -/
def msgCorrupt (year : String) : String :=
  "Error parsing JSON data for year " ++ year

/-- `load_year_data(year)`: returns the parsed document, or `None`
after emitting a diagnostic for a missing or unparsable file.  The
backing store is a parameter; the second component collects the
`st.error` diagnostics emitted. -/
def load_year_data (store : String → LoadResult) (year : String) :
    Option JValue × List String :=
  match store year with
  | .ok v => (some v, [])
  | .notFound => (none, [msgNotFound year])
  | .corrupt => (none, [msgCorrupt year])

/-- Lines 250-256 of `calculate_metrics`: the contribution of one
course's `completion` sub-record to `total_participants`
(`total_completed` if present, else `technical_completed +
governance_completed` if both present, else nothing). -/
def completionContribution (course : JValue) : Except PyErr Int := do
  let b ← pyContains "completion" course
  if b then
    let completion ← pyIndexStr course "completion"
    let bTot ← pyContains "total_completed" completion
    if bTot then
      let v ← pyIndexStr completion "total_completed"
      pyToInt v
    else
      let bTech ← pyContains "technical_completed" completion
      if bTech then
        let bGov ← pyContains "governance_completed" completion
        if bGov then
          let t ← pyIndexStr completion "technical_completed"
          let g ← pyIndexStr completion "governance_completed"
          let x ← pyToInt t
          let y ← pyToInt g
          pure (x + y)
        else pure 0
      else pure 0
  else pure 0

/-- Lines 258-259 of `calculate_metrics`: the contribution of one
course's `metrics.completed` field to `total_participants`. -/
def metricsContribution (course : JValue) : Except PyErr Int := do
  let b ← pyContains "metrics" course
  if b then
    let m ← pyIndexStr course "metrics"
    let bc ← pyContains "completed" m
    if bc then
      let v ← pyIndexStr m "completed"
      pyToInt v
    else pure 0
  else pure 0

/-- One course's total contribution to `total_participants`
(lines 248-259): the completion contribution plus, independently, the
`metrics.completed` contribution. -/
def courseParticipants (course : JValue) : Except PyErr Int := do
  let a ← completionContribution course
  let b ← metricsContribution course
  pure (a + b)

/-- `if k in events: total += len(events[k])` for one key. -/
def keyedLen (events : JValue) (k : String) : Except PyErr Int := do
  let b ← pyContains k events
  if b then
    let v ← pyIndexStr events k
    pyLen v
  else pure 0

/-- Lines 265-272: the `workshops`/`talks`/`notable_meetups` counts
added to `total_workshops_events`. -/
def structuredEventsCount (events : JValue) : Except PyErr Int := do
  let n1 ← keyedLen events "workshops"
  let n2 ← keyedLen events "talks"
  let n3 ← keyedLen events "notable_meetups"
  pure (n1 + n2 + n3)

/-- Lines 282-285: the 2024 retreat contribution to
`total_participants` — exactly 24 when `"24"` occurs in
`str(events["retreat"]["participants"])`, else 0. -/
def retreatParticipants (events : JValue) : Except PyErr Int := do
  let b ← pyContains "retreat" events
  if b then
    let retreat ← pyIndexStr events "retreat"
    let bp ← pyContains "participants" retreat
    if bp then
      let p ← pyIndexStr retreat "participants"
      if strContainsSub "24" (pyStr p) then pure 24 else pure 0
    else pure 0
  else pure 0

/-- Lines 291-297: one flat event's contribution to
`total_participants` — the first digit run of its `participants`
string, or 0 when the field is absent or has no digit run.
`re.findall` raises `TypeError` on a non-string argument. -/
def flatEventParticipants (event : JValue) : Except PyErr Int := do
  let b ← pyContains "participants" event
  if b then
    let ps ← pyIndexStr event "participants"
    match ps with
    | .str s =>
      match firstNumber s with
      | some n => pure (n : Int)
      | none => pure 0
    | _ => .error .typeError
  else pure 0

/-- The running `total += f(x)` accumulation of a Python `for` loop. -/
def sumM (g : JValue → Except PyErr Int) (xs : List JValue) : Except PyErr Int :=
  xs.foldlM (fun acc x => do pure (acc + (← g x))) 0

/-- The body of the `for year in years` loop of `calculate_metrics`
(lines 231-297) for one loaded document, as the year's contribution to
each counter, in the statement order of the source. -/
def calculateYear (year : String) (data : JValue) : Except PyErr Totals := do
  let courses ← pyGet data "courses" (.arr [])
  let nCourses ← pyLen courses
  let universityGroups ← pyGet data "university_groups" (.arr [])
  let nGroups ← pyLen universityGroups
  let researchItems ← pyGet data "research" (.arr [])
  let nResearch ← pyLen researchItems
  let individualImpacts ← pyGet data "individual_impacts" (.arr [])
  let nImpacts ← pyLen individualImpacts
  let courseItems ← pyIter courses
  let pCourses ← sumM courseParticipants courseItems
  let events ← pyGet data "events" (.obj [])
  let nStructured ← structuredEventsCount events
  let nFlat ←
    if year == "2023" then do
      let allEvents ← pyGet data "events" (.arr [])
      pyLen allEvents
    else pure 0
  let pRetreat ← if year == "2024" then retreatParticipants events else pure 0
  let pFlat ←
    if year == "2023" then do
      let allEvents ← pyGet data "events" (.arr [])
      let items ← pyIter allEvents
      sumM flatEventParticipants items
    else pure 0
  pure ⟨nCourses, pCourses + pRetreat + pFlat, nResearch,
        nStructured + nFlat, nGroups, nImpacts⟩

/-- One year's contribution inside the loop: a skipped year (load
returned `None`, or the loaded value is falsy) contributes zero. -/
def yearContribution (store : String → LoadResult) (year : String) :
    Except PyErr Totals :=
  match (load_year_data store year).fst with
  | none => .ok Totals.zero
  | some data => if pyFalsy data then .ok Totals.zero else calculateYear year data

/-- The aggregation loop of `calculate_metrics` over an explicit list
of year identifiers, folding per-year contributions into the running
totals (the six `total_* = 0` initialisations and the `for year in
years` loop). -/
def calculate_metrics_over (store : String → LoadResult) (years : List String) :
    Except PyErr Totals :=
  years.foldlM (fun acc y => do pure (acc + (← yearContribution store y))) Totals.zero

/-- `calculate_metrics()`: the aggregation over the fixed year list
`["2023", "2024", "2025"]` of line 224. -/
def calculate_metrics (store : String → LoadResult) : Except PyErr Totals :=
  calculate_metrics_over store ["2023", "2024", "2025"]

theorem exc_ok_bind {α β : Type} (a : α) (f : α → Except PyErr β) :
    (Except.ok a >>= f) = f a := rfl

theorem exc_err_bind {α β : Type} (e : PyErr) (f : α → Except PyErr β) :
    ((Except.error e : Except PyErr α) >>= f) = .error e := rfl

theorem foldlM_exc_nil {α β : Type} (f : β → α → Except PyErr β) (b : β) :
    List.foldlM f b [] = pure b := rfl

theorem foldlM_exc_cons {α β : Type} (f : β → α → Except PyErr β) (b : β)
    (x : α) (xs : List α) :
    List.foldlM f b (x :: xs) = f b x >>= fun b2 => List.foldlM f b2 xs := rfl

/-- Evaluating the `total += f(x)` loop when every iteration is known:
the accumulator collects the pointwise values. -/
theorem sum_loop_eq (g : JValue → Except PyErr Int) (h : JValue → Int) :
    ∀ (xs : List JValue), (∀ x ∈ xs, g x = .ok (h x)) → ∀ (acc : Int),
      List.foldlM (fun a x => do pure (a + (← g x))) acc xs
        = .ok (acc + (xs.map h).sum) := by
  intro xs
  induction xs with
  | nil =>
    intro _ acc
    simp only [foldlM_exc_nil, List.map_nil, List.sum_nil, Int.add_zero]
    rfl
  | cons x xs ih =>
    intro H acc
    rw [foldlM_exc_cons]
    have hx : g x = .ok (h x) := H x (by simp)
    show (g x >>= fun v => pure (acc + v)) >>= _ = _
    rw [hx, exc_ok_bind]
    show List.foldlM _ (acc + h x) xs = _
    rw [ih (fun y hy => H y (by simp [hy])) (acc + h x)]
    simp [Int.add_assoc]

/-- `sumM` with every iteration known. -/
theorem sumM_eq (g : JValue → Except PyErr Int) (h : JValue → Int)
    (xs : List JValue) (H : ∀ x ∈ xs, g x = .ok (h x)) :
    sumM g xs = .ok ((xs.map h).sum) := by
  have := sum_loop_eq g h xs H 0
  simpa [sumM] using this

theorem Totals.add_zero_right (a : Totals) : a + Totals.zero = a := add_zero a

theorem Totals.zero_add_left (a : Totals) : Totals.zero + a = a := zero_add a

theorem exc_bind_assoc {α β γ : Type} (m : Except PyErr α) (f : α → Except PyErr β)
    (g : β → Except PyErr γ) : (m >>= f) >>= g = m >>= fun x => f x >>= g := by
  cases m <;> rfl

/-- The 2023 document of the spec's end-to-end scenario. -/
def scenarioDoc2023 : JValue :=
  .obj [("events", .arr [.obj [("participants", .str "~30")],
                         .obj [("participants", .str "~15")]])]

/-- The 2024 document of the spec's end-to-end scenario. -/
def scenarioDoc2024 : JValue :=
  .obj [("courses", .arr [.obj [("completion",
           .obj [("technical_completed", .num 20), ("governance_completed", .num 54)])]]),
        ("events", .obj [("workshops", .arr [.obj []]),
                         ("retreat", .obj [("participants", .str "24 attendees")])])]

/-- The backing store of the end-to-end scenario: exactly the two
documents above, everything else absent. -/
def scenarioStore : String → LoadResult := fun y =>
  if y == "2023" then .ok scenarioDoc2023
  else if y == "2024" then .ok scenarioDoc2024
  else .notFound

/-- Claim C1 (counterexample): on the spec's end-to-end scenario the
aggregation returns `total_workshops_events = 3` (2 from the 2023 flat
event list plus 1 from the 2024 workshops), not 1 as the claim states;
the other five counters match the claim. -/
theorem scenario_totals_ne_claimed :
    calculate_metrics_over scenarioStore ["2023", "2024"] = .ok ⟨1, 143, 0, 3, 0, 0⟩ ∧
      (⟨1, 143, 0, 3, 0, 0⟩ : Totals) ≠ ⟨1, 143, 0, 1, 0, 0⟩ :=
  ⟨rfl, by decide⟩

/-- Claim C1 (amended): aggregating exactly the two scenario years
returns `total_courses = 1`, `total_participants = 143`,
`total_workshops_events = 3`, and all remaining counters 0. -/
theorem scenario_totals :
    calculate_metrics_over scenarioStore ["2023", "2024"] = .ok ⟨1, 143, 0, 3, 0, 0⟩ := rfl

/-- A year document whose only content is
`events.retreat.participants = p`. -/
def retreatDoc (p : JValue) : JValue :=
  .obj [("events", .obj [("retreat", .obj [("participants", p)])])]

/-- Claim C2 (counterexample): a structured-events year other than
`"2024"` — here 2025, whose events section is a mapping — with
`events.retreat.participants = "24 attendees"` contributes 0 to
`total_participants`, not 24: the retreat rule is keyed to the year
identifier `"2024"`, not to the structured shape. -/
theorem retreat_2025_adds_nothing :
    calculate_metrics_over
        (fun y => if y == "2025" then .ok (retreatDoc (.str "24 attendees")) else .notFound)
        ["2025"]
      = .ok Totals.zero ∧ Totals.zero.total_participants ≠ 24 :=
  ⟨rfl, by decide⟩

/-- Claim C2 (amended): for the year `"2024"` only, a retreat whose
`participants` field is the text `v` adds exactly 24 to
`total_participants` when `v` contains the literal substring `"24"`,
and 0 otherwise. -/
theorem retreat_2024_literal_24 (v : String) :
    calculate_metrics_over
        (fun y => if y == "2024" then .ok (retreatDoc (.str v)) else .notFound) ["2024"]
      = .ok ⟨0, if strContainsSub "24" v then 24 else 0, 0, 0, 0, 0⟩ := by
  have e : calculate_metrics_over
      (fun y => if y == "2024" then .ok (retreatDoc (.str v)) else .notFound) ["2024"]
      = (((if strContainsSub "24" v then (Except.ok 24 : Except PyErr Int) else .ok 0)
          >>= fun pR => pure ⟨0, 0 + pR + 0, 0, 0, 0, 0⟩)
         >>= fun t => pure (Totals.zero + t))
        >>= fun b2 => (pure b2 : Except PyErr Totals) := rfl
  rw [e]
  cases strContainsSub "24" v <;> rfl

/-- A course record carrying exactly the optional participant-count
fields: `completion.total_completed`, `completion.technical_completed`,
`completion.governance_completed` (the `completion` sub-record is
present when any of the three is) and `metrics.completed`. -/
def mkCourse (t tc gc mc : Option Int) : JValue :=
  let compFields :=
    (match t with | some n => [("total_completed", JValue.num n)] | none => []) ++
    (match tc with | some n => [("technical_completed", JValue.num n)] | none => []) ++
    (match gc with | some n => [("governance_completed", JValue.num n)] | none => [])
  .obj ((if compFields.isEmpty then [] else [("completion", JValue.obj compFields)]) ++
        (match mc with | some n => [("metrics", JValue.obj [("completed", JValue.num n)])] | none => []))

/-- The claim's completion rule: `total_completed` when present, else
the sum of the two track counts when both are present, else 0. -/
def completionValue : Option Int → Option Int → Option Int → Int
  | some v, _, _ => v
  | none, some a, some b => a + b
  | _, _, _ => 0

/-- The claim's metrics rule: `metrics.completed` when present, else 0. -/
def metricsValue : Option Int → Int
  | some v => v
  | none => 0

/-- Claim C4: a course's contribution to `total_participants` is the
completion rule plus, additively and independently, the metrics rule;
in particular `total_completed = 15` with `metrics.completed = 10`
contributes exactly 25, and `technical_completed = 20` with
`governance_completed = 54` and no `total_completed` contributes
exactly 74. -/
theorem course_participants_additive :
    (∀ t tc gc mc : Option Int,
        courseParticipants (mkCourse t tc gc mc)
          = .ok (completionValue t tc gc + metricsValue mc)) ∧
      courseParticipants (mkCourse (some 15) none none (some 10)) = .ok 25 ∧
      courseParticipants (mkCourse none (some 20) (some 54) none) = .ok 74 :=
  ⟨fun t tc gc mc => by cases t <;> cases tc <;> cases gc <;> cases mc <;> rfl,
   rfl, rfl⟩

/-- A flat event record: `{"participants": s}` when a participants
string is given, `{}` otherwise. -/
def mkFlatEvent : Option String → JValue
  | some s => .obj [("participants", .str s)]
  | none => .obj []

/-- The claim's flat-event rule: the value of the first digit run of
the participants string, 0 when there is none or the field is absent. -/
def extractParticipants : Option String → Int
  | some s => (match firstNumber s with | some n => (n : Int) | none => 0)
  | none => 0

/-- The flat-event contribution read off an arbitrary event value. -/
def flatEventValue (e : JValue) : Int :=
  match e with
  | .obj kvs =>
    (match jlookup kvs "participants" with
     | some (.str s) => (match firstNumber s with | some n => (n : Int) | none => 0)
     | _ => 0)
  | _ => 0

theorem flatEventValue_mk (o : Option String) :
    flatEventValue (mkFlatEvent o) = extractParticipants o := by
  cases o <;> rfl

theorem flatEventParticipants_mk (o : Option String) :
    flatEventParticipants (mkFlatEvent o) = .ok (extractParticipants o) := by
  cases o with
  | none => rfl
  | some s =>
    have e : flatEventParticipants (mkFlatEvent (some s))
        = (match firstNumber s with
           | some n => (pure (n : Int) : Except PyErr Int)
           | none => pure 0) := rfl
    have e2 : extractParticipants (some s)
        = (match firstNumber s with | some n => (n : Int) | none => 0) := rfl
    rw [e, e2]
    cases firstNumber s <;> rfl

theorem map_mkFlatEvent_any_str (k : String) (ps : List (Option String)) :
    ((ps.map mkFlatEvent).any
      (fun e => match e with | .str s => s == k | _ => false)) = false := by
  induction ps with
  | nil => rfl
  | cons o ps ih =>
    rw [List.map_cons, List.any_cons]
    have h1 : (match mkFlatEvent o with | JValue.str s => s == k | _ => false) = false := by
      cases o <;> rfl
    rw [h1, Bool.false_or]
    exact ih

theorem keyedLen_arr_no_match (xs : List JValue) (k : String)
    (h : (xs.any (fun e => match e with | .str s => s == k | _ => false)) = false) :
    keyedLen (.arr xs) k = .ok 0 := by
  have e : keyedLen (.arr xs) k
      = if (xs.any (fun e => match e with | .str s => s == k | _ => false))
        then (pyIndexStr (.arr xs) k >>= fun v => pyLen v) else pure 0 := rfl
  rw [e, h]
  rfl

theorem structuredEventsCount_flat (ps : List (Option String)) :
    structuredEventsCount (.arr (ps.map mkFlatEvent)) = .ok 0 := by
  have e : structuredEventsCount (.arr (ps.map mkFlatEvent))
      = keyedLen (.arr (ps.map mkFlatEvent)) "workshops" >>= fun n1 =>
        keyedLen (.arr (ps.map mkFlatEvent)) "talks" >>= fun n2 =>
        keyedLen (.arr (ps.map mkFlatEvent)) "notable_meetups" >>= fun n3 =>
        pure (n1 + n2 + n3) := rfl
  rw [e, keyedLen_arr_no_match _ _ (map_mkFlatEvent_any_str _ ps), exc_ok_bind,
      keyedLen_arr_no_match _ _ (map_mkFlatEvent_any_str _ ps), exc_ok_bind,
      keyedLen_arr_no_match _ _ (map_mkFlatEvent_any_str _ ps), exc_ok_bind]
  rfl

theorem sumM_flat (ps : List (Option String)) :
    sumM flatEventParticipants (ps.map mkFlatEvent)
      = .ok ((ps.map extractParticipants).sum) := by
  have h := sumM_eq flatEventParticipants flatEventValue (ps.map mkFlatEvent)
    (by
      intro x hx
      rcases List.mem_map.mp hx with ⟨o, _, rfl⟩
      rw [flatEventParticipants_mk, flatEventValue_mk])
  rw [h, List.map_map]
  have hcomp : flatEventValue ∘ mkFlatEvent = extractParticipants :=
    funext flatEventValue_mk
  rw [hcomp]

/-- A flat-event-list year document: `{"events": [...]}`. -/
def flatDoc (ps : List (Option String)) : JValue :=
  .obj [("events", .arr (ps.map mkFlatEvent))]

/-- Claim C5: for the flat-event-list year `"2023"`, each event whose
`participants` field is a text string contributes the value of the
first digit run of that string (0 when there is none), so aggregating
a 2023 document with participants strings `"~30"`, `"~15"`, `"~40"`
adds exactly 85 to `total_participants`. -/
theorem flat_events_digit_extraction :
    (∀ ps : List (Option String),
       calculate_metrics_over
           (fun y => if y == "2023" then .ok (flatDoc ps) else .notFound) ["2023"]
         = .ok ⟨0, (ps.map extractParticipants).sum, 0, ((ps.map mkFlatEvent).length : Int), 0, 0⟩) ∧
      calculate_metrics_over
          (fun y => if y == "2023"
            then .ok (flatDoc [some "~30", some "~15", some "~40"]) else .notFound)
          ["2023"]
        = .ok ⟨0, 85, 0, 3, 0, 0⟩ := by
  constructor
  · intro ps
    have e : calculate_metrics_over
        (fun y => if y == "2023" then .ok (flatDoc ps) else .notFound) ["2023"]
        = ((structuredEventsCount (.arr (ps.map mkFlatEvent)) >>= fun nS =>
            sumM flatEventParticipants (ps.map mkFlatEvent) >>= fun pF =>
            pure ⟨0, 0 + 0 + pF, 0, nS + ((ps.map mkFlatEvent).length : Int), 0, 0⟩)
           >>= fun t => pure (Totals.zero + t))
          >>= fun b2 => (pure b2 : Except PyErr Totals) := rfl
    rw [e, structuredEventsCount_flat, exc_ok_bind, sumM_flat, exc_ok_bind]
    show Except.ok (Totals.zero + ⟨0, 0 + 0 + (ps.map extractParticipants).sum, 0,
        0 + ((ps.map mkFlatEvent).length : Int), 0, 0⟩) = _
    have : Totals.zero + (⟨0, 0 + 0 + (ps.map extractParticipants).sum, 0,
        0 + ((ps.map mkFlatEvent).length : Int), 0, 0⟩ : Totals)
        = ⟨0, (ps.map extractParticipants).sum, 0, ((ps.map mkFlatEvent).length : Int), 0, 0⟩ := by
      show Totals.add _ _ = _
      simp only [Totals.add, Totals.zero, Totals.mk.injEq]
      omega
    rw [this]
  · rfl

theorem exc_pure_bind {α β : Type} (a : α) (f : α → Except PyErr β) :
    ((pure a : Except PyErr α) >>= f) = f a := rfl

/-- A year whose contribution is zero can be dropped from the fold. -/
theorem agg_drop_zero_year (store : String → LoadResult) (y : String)
    (hy : yearContribution store y = .ok Totals.zero) :
    ∀ (ys1 ys2 : List String) (acc : Totals),
      List.foldlM (fun a z => do pure (a + (← yearContribution store z))) acc (ys1 ++ y :: ys2)
        = List.foldlM (fun a z => do pure (a + (← yearContribution store z))) acc (ys1 ++ ys2) := by
  intro ys1
  induction ys1 with
  | nil =>
    intro ys2 acc
    simp only [List.nil_append, foldlM_exc_cons]
    rw [hy]
    simp only [exc_ok_bind, exc_pure_bind, Totals.add_zero_right]
  | cons z rest ih =>
    intro ys2 acc
    simp only [List.cons_append, foldlM_exc_cons]
    cases yearContribution store z with
    | error e => simp only [exc_err_bind]
    | ok t =>
      simp only [exc_ok_bind, exc_pure_bind]
      exact ih ys2 (acc + t)

/-- The fold over years that all contribute zero returns the
accumulator unchanged. -/
theorem agg_all_zero (store : String → LoadResult)
    (hz : ∀ y, yearContribution store y = .ok Totals.zero) :
    ∀ (ys : List String) (acc : Totals),
      List.foldlM (fun a z => do pure (a + (← yearContribution store z))) acc ys = .ok acc := by
  intro ys
  induction ys with
  | nil => intro acc; rfl
  | cons z rest ih =>
    intro acc
    simp only [foldlM_exc_cons]
    rw [hz z]
    simp only [exc_ok_bind, exc_pure_bind, Totals.add_zero_right]
    exact ih acc

/-- Claim C7: a year whose backing document is missing or corrupt
contributes exactly zero to every counter (dropping it from the year
list leaves the totals unchanged), and when every backing document is
absent `calculate_metrics` returns the all-zero Totals, not an
error. -/
theorem missing_year_fails_open :
    (∀ (store : String → LoadResult) (ys1 ys2 : List String) (y : String),
        store y = .notFound ∨ store y = .corrupt →
        calculate_metrics_over store (ys1 ++ y :: ys2)
          = calculate_metrics_over store (ys1 ++ ys2)) ∧
      (∀ store : String → LoadResult, (∀ y, store y = .notFound) →
        calculate_metrics store = .ok Totals.zero) := by
  constructor
  · intro store ys1 ys2 y h
    have hy : yearContribution store y = .ok Totals.zero := by
      rcases h with h | h <;> simp [yearContribution, load_year_data, h]
    exact agg_drop_zero_year store y hy ys1 ys2 Totals.zero
  · intro store h
    have hz : ∀ y, yearContribution store y = .ok Totals.zero := fun y => by
      simp [yearContribution, load_year_data, h y]
    exact agg_all_zero store hz ["2023", "2024", "2025"] Totals.zero

theorem missing_year_fails_open_witness :
    calculate_metrics_over (fun _ => LoadResult.notFound) (["2023"] ++ "2024" :: ["2025"])
        = calculate_metrics_over (fun _ => LoadResult.notFound) (["2023"] ++ ["2025"]) ∧
      calculate_metrics (fun _ => LoadResult.notFound) = .ok Totals.zero :=
  ⟨missing_year_fails_open.1 (fun _ => LoadResult.notFound) ["2023"] ["2025"] "2024" (Or.inl rfl),
   missing_year_fails_open.2 (fun _ => LoadResult.notFound) (fun _ => rfl)⟩

/-- Claim C8 (counterexample): the loader's return value is the same
(`None`) for a missing file and for an unparsable file — the two
failure modes of two distinct stores are not distinguishable from the
value returned to the caller. -/
theorem loader_failures_same_return :
    (load_year_data (fun _ => LoadResult.notFound) "2025").fst
        = (load_year_data (fun _ => LoadResult.corrupt) "2025").fst ∧
      LoadResult.notFound ≠ LoadResult.corrupt :=
  ⟨rfl, fun h => nomatch h⟩

/-- Claim C8 (amended): for either failure mode the loader returns the
same explicit absent signal (`None`) without raising; the two modes
are distinguishable only through the diagnostic message emitted to the
reporting collaborator, and those messages differ for every year. -/
theorem loader_absent_signal (store : String → LoadResult) (year : String) :
    (store year = .notFound → load_year_data store year = (none, [msgNotFound year])) ∧
      (store year = .corrupt → load_year_data store year = (none, [msgCorrupt year])) ∧
      msgNotFound year ≠ msgCorrupt year := by
  refine ⟨fun h => by simp [load_year_data, h], fun h => by simp [load_year_data, h], ?_⟩
  intro h
  have hl := congrArg String.length h
  have l1 : ("Data file for year " : String).length = 19 := rfl
  have l2 : (" not found" : String).length = 10 := rfl
  have l3 : ("Error parsing JSON data for year " : String).length = 33 := rfl
  simp only [msgNotFound, msgCorrupt, String.length_append, l1, l2, l3] at hl
  omega

theorem loader_absent_signal_witness :
    load_year_data (fun _ => LoadResult.notFound) "2025" = (none, [msgNotFound "2025"]) ∧
      load_year_data (fun _ => LoadResult.corrupt) "2025" = (none, [msgCorrupt "2025"]) ∧
      msgNotFound "2025" ≠ msgCorrupt "2025" :=
  ⟨(loader_absent_signal (fun _ => LoadResult.notFound) "2025").1 rfl,
   (loader_absent_signal (fun _ => LoadResult.corrupt) "2025").2.1 rfl,
   (loader_absent_signal (fun _ => LoadResult.notFound) "2025").2.2⟩

/-- Claim C10: a year whose document loads successfully but to a falsy
value (such as `{}` or `null`) is skipped — it contributes zero to
every counter, identically to a year whose document is missing. -/
theorem falsy_year_skipped (store : String → LoadResult) (y : String) (d : JValue)
    (h1 : store y = .ok d) (h2 : pyFalsy d = true) :
    yearContribution store y = .ok Totals.zero ∧
      yearContribution store y = yearContribution (fun _ => LoadResult.notFound) y := by
  have hz : yearContribution store y = .ok Totals.zero := by
    simp [yearContribution, load_year_data, h1, h2]
  exact ⟨hz, hz.trans rfl⟩

theorem falsy_year_skipped_witness :
    (yearContribution (fun _ => LoadResult.ok (JValue.obj [])) "2024" = .ok Totals.zero ∧
      yearContribution (fun _ => LoadResult.ok (JValue.obj [])) "2024"
        = yearContribution (fun _ => LoadResult.notFound) "2024") ∧
      (yearContribution (fun _ => LoadResult.ok JValue.null) "2024" = .ok Totals.zero ∧
        yearContribution (fun _ => LoadResult.ok JValue.null) "2024"
          = yearContribution (fun _ => LoadResult.notFound) "2024") :=
  ⟨falsy_year_skipped (fun _ => LoadResult.ok (JValue.obj [])) "2024" (JValue.obj []) rfl rfl,
   falsy_year_skipped (fun _ => LoadResult.ok JValue.null) "2024" JValue.null rfl rfl⟩

theorem exc_map_ok {α β : Type} (a : α) (f : α → β) :
    (Except.ok a : Except PyErr α).map f = .ok (f a) := rfl

theorem exc_map_err {α β : Type} (e : PyErr) (f : α → β) :
    (Except.error e : Except PyErr α).map f = .error e := rfl

/-- The per-year contributions of a year list, in order, failing on
the first year whose processing raises. -/
def collectM (g : String → Except PyErr Totals) : List String → Except PyErr (List Totals)
  | [] => .ok []
  | y :: ys => do
    let t ← g y
    let ts ← collectM g ys
    pure (t :: ts)

/-- The running fold of contributions equals the accumulator plus the
sum of the collected per-year contributions. -/
theorem fold_eq_collect (g : String → Except PyErr Totals) :
    ∀ (ys : List String) (acc : Totals),
      List.foldlM (fun a z => do pure (a + (← g z))) acc ys
        = (collectM g ys).map (fun ts => acc + ts.sum) := by
  intro ys
  induction ys with
  | nil =>
    intro acc
    show (pure acc : Except PyErr Totals) = .ok (acc + ([] : List Totals).sum)
    simp only [List.sum_nil, add_zero]
    rfl
  | cons z rest ih =>
    intro acc
    simp only [foldlM_exc_cons]
    have e : collectM g (z :: rest)
        = g z >>= fun t => collectM g rest >>= fun ts => pure (t :: ts) := rfl
    rw [e]
    cases g z with
    | error e2 => simp only [exc_err_bind]; rfl
    | ok t =>
      simp only [exc_ok_bind, exc_pure_bind]
      rw [ih (acc + t)]
      cases collectM g rest with
      | error e3 => rfl
      | ok ts =>
        simp only [exc_ok_bind, exc_pure_bind]
        show Except.ok (acc + t + ts.sum) = Except.ok (acc + (t :: ts).sum)
        rw [List.sum_cons, add_assoc]

theorem collectM_cons_ok {g : String → Except PyErr Totals} {y : String}
    {ys : List String} {ts : List Totals} (h : collectM g (y :: ys) = .ok ts) :
    ∃ t rest, g y = .ok t ∧ collectM g ys = .ok rest ∧ ts = t :: rest := by
  have e : collectM g (y :: ys)
      = g y >>= fun t => collectM g ys >>= fun rest => pure (t :: rest) := rfl
  rw [e] at h
  cases hx : g y with
  | error e2 => rw [hx] at h; simp only [exc_err_bind] at h; exact absurd h (by simp)
  | ok t =>
    rw [hx, exc_ok_bind] at h
    cases hr : collectM g ys with
    | error e3 => rw [hr] at h; simp only [exc_err_bind] at h; exact absurd h (by simp)
    | ok rest =>
      rw [hr, exc_ok_bind] at h
      exact ⟨t, rest, rfl, rfl, (Except.ok.inj h).symm⟩

theorem collectM_cons_build {g : String → Except PyErr Totals} {y : String}
    {ys : List String} {t : Totals} {rest : List Totals}
    (h1 : g y = .ok t) (h2 : collectM g ys = .ok rest) :
    collectM g (y :: ys) = .ok (t :: rest) := by
  have e : collectM g (y :: ys)
      = g y >>= fun t => collectM g ys >>= fun rest => pure (t :: rest) := rfl
  rw [e, h1, exc_ok_bind, h2, exc_ok_bind]
  rfl

/-- Permuting the year list permutes the collected contributions. -/
theorem collect_perm (g : String → Except PyErr Totals) :
    ∀ {ys ys' : List String}, ys.Perm ys' →
      ∀ ts, collectM g ys = .ok ts →
        ∃ ts', collectM g ys' = .ok ts' ∧ ts.Perm ts' := by
  intro ys ys' hp
  induction hp with
  | nil => exact fun ts h => ⟨ts, h, List.Perm.refl ts⟩
  | cons x p ih =>
    intro ts h
    obtain ⟨t, rest, hx, hr, rfl⟩ := collectM_cons_ok h
    obtain ⟨rest', hrest', hperm⟩ := ih rest hr
    exact ⟨t :: rest', collectM_cons_build hx hrest', List.Perm.cons t hperm⟩
  | swap x y l =>
    intro ts h
    obtain ⟨ty, rest1, hy, hr1, rfl⟩ := collectM_cons_ok h
    obtain ⟨tx, rest2, hx, hr2, rfl⟩ := collectM_cons_ok hr1
    exact ⟨tx :: ty :: rest2,
      collectM_cons_build hx (collectM_cons_build hy hr2),
      List.Perm.swap tx ty rest2⟩
  | trans p1 p2 ih1 ih2 =>
    intro ts h
    obtain ⟨ts1, h1, hp1⟩ := ih1 ts h
    obtain ⟨ts2, h2, hp2⟩ := ih2 ts1 h1
    exact ⟨ts2, h2, hp1.trans hp2⟩

/-- Claim C6: whenever aggregation over a year list returns a Totals
record, aggregation over any permutation of that list returns the
identical record (the fold is a commutative sum of independent
per-year contributions). -/
theorem aggregation_order_independent (store : String → LoadResult)
    (ys ys' : List String) (hp : ys.Perm ys') (t : Totals)
    (h : calculate_metrics_over store ys = .ok t) :
    calculate_metrics_over store ys' = .ok t := by
  have e1 : calculate_metrics_over store ys
      = (collectM (yearContribution store) ys).map (fun ts => Totals.zero + ts.sum) :=
    fold_eq_collect (yearContribution store) ys Totals.zero
  rw [e1] at h
  cases hc : collectM (yearContribution store) ys with
  | error e => rw [hc, exc_map_err] at h; exact absurd h (by simp)
  | ok ts =>
    rw [hc, exc_map_ok] at h
    obtain ⟨ts', hts', hperm⟩ := collect_perm (yearContribution store) hp ts hc
    have e2 : calculate_metrics_over store ys'
        = (collectM (yearContribution store) ys').map (fun ls => Totals.zero + ls.sum) :=
      fold_eq_collect (yearContribution store) ys' Totals.zero
    rw [e2, hts', exc_map_ok, ← List.Perm.sum_eq hperm]
    exact h

theorem aggregation_order_independent_witness :
    calculate_metrics_over (fun _ => LoadResult.notFound) ["2024", "2023"] = .ok Totals.zero :=
  aggregation_order_independent (fun _ => LoadResult.notFound) ["2023", "2024"] ["2024", "2023"]
    (List.Perm.swap "2024" "2023" []) Totals.zero rfl

def isObjB : JValue → Bool
  | .obj _ => true
  | _ => false

def isNumB : JValue → Bool
  | .num _ => true
  | _ => false

def WFcompletion (comp : JValue) : Bool :=
  match comp with
  | .obj kvs =>
    (match jlookup kvs "total_completed" with
     | some v => isNumB v
     | none =>
       (match jlookup kvs "technical_completed", jlookup kvs "governance_completed" with
        | some a, some b => isNumB a && isNumB b
        | _, _ => true))
  | _ => false

def WFcourse (c : JValue) : Bool :=
  match c with
  | .obj kvs =>
    (match jlookup kvs "completion" with
     | none => true
     | some comp => WFcompletion comp) &&
    (match jlookup kvs "metrics" with
     | none => true
     | some (.obj ms) =>
       (match jlookup ms "completed" with
        | none => true
        | some v => isNumB v)
     | some _ => false)
  | _ => false

theorem exc_fmap_ok {α β : Type} (a : α) (f : α → β) :
    (f <$> (Except.ok a : Except PyErr α)) = .ok (f a) := rfl

theorem exc_fmap_err {α β : Type} (e : PyErr) (f : α → β) :
    (f <$> (Except.error e : Except PyErr α)) = .error e := rfl

theorem exc_pure_eq_ok {α : Type} (a : α) : (pure a : Except PyErr α) = .ok a := rfl

theorem completionContribution_ok (kvs : List (String × JValue))
    (h : (match jlookup kvs "completion" with
          | none => true
          | some comp => WFcompletion comp) = true) :
    ∃ n, completionContribution (.obj kvs) = .ok n := by
  cases hc : jlookup kvs "completion" with
  | none =>
    refine ⟨0, ?_⟩
    simp [completionContribution, pyContains, pyIndexStr, hc, exc_ok_bind, exc_err_bind, exc_pure_bind, exc_fmap_ok, exc_fmap_err, exc_pure_eq_ok]
  | some comp =>
    rw [hc] at h
    cases comp with
    | obj cs =>
      cases ht : jlookup cs "total_completed" with
      | some v =>
        simp only [WFcompletion, ht] at h
        cases v <;> simp_all [isNumB]
        case num n =>
          refine ⟨n, ?_⟩
          simp [completionContribution, pyContains, pyIndexStr, pyToInt, hc, ht, exc_ok_bind, exc_err_bind, exc_pure_bind, exc_fmap_ok, exc_fmap_err, exc_pure_eq_ok]
      | none =>
        simp only [WFcompletion, ht] at h
        cases ha : jlookup cs "technical_completed" with
        | none =>
          refine ⟨0, ?_⟩
          simp [completionContribution, pyContains, pyIndexStr, hc, ht, ha, exc_ok_bind, exc_err_bind, exc_pure_bind, exc_fmap_ok, exc_fmap_err, exc_pure_eq_ok]
        | some a =>
          cases hb : jlookup cs "governance_completed" with
          | none =>
            refine ⟨0, ?_⟩
            simp [completionContribution, pyContains, pyIndexStr, hc, ht, ha, hb, exc_ok_bind, exc_err_bind, exc_pure_bind, exc_fmap_ok, exc_fmap_err, exc_pure_eq_ok]
          | some b =>
            rw [ha, hb] at h
            simp only [Bool.and_eq_true] at h
            obtain ⟨ha2, hb2⟩ := h
            cases a <;> simp_all [isNumB]
            case num na =>
              cases b <;> simp_all [isNumB]
              case num nb =>
                refine ⟨na + nb, ?_⟩
                simp [completionContribution, pyContains, pyIndexStr, pyToInt, hc, ht, ha, hb, exc_ok_bind, exc_err_bind, exc_pure_bind, exc_fmap_ok, exc_fmap_err, exc_pure_eq_ok]
    | null => simp [WFcompletion] at h
    | bool b => simp [WFcompletion] at h
    | num n => simp [WFcompletion] at h
    | str s => simp [WFcompletion] at h
    | arr xs => simp [WFcompletion] at h

def optArr : Option JValue → Bool
  | none => true
  | some (.arr _) => true
  | some _ => false

def optObj : Option JValue → Bool
  | none => true
  | some (.obj _) => true
  | some _ => false

def WFevent (e : JValue) : Bool :=
  match e with
  | .obj kvs =>
    (match jlookup kvs "participants" with
     | some (.str _) => true
     | some _ => false
     | none => true)
  | _ => false

def WFevents (year : String) (ev : JValue) : Bool :=
  match ev with
  | .arr xs => if year == "2023" then xs.all WFevent else xs.all isObjB
  | .obj kvs =>
    optArr (jlookup kvs "workshops") && optArr (jlookup kvs "talks") &&
    optArr (jlookup kvs "notable_meetups") && optObj (jlookup kvs "retreat") &&
    (year != "2023" || kvs.all (fun kv => !(strContainsSub "participants" kv.fst)))
  | _ => false

def WFsection (o : Option JValue) : Bool :=
  match o with
  | none => true
  | some (.arr _) => true
  | some _ => false

def WFDoc (year : String) (data : JValue) : Bool :=
  match data with
  | .obj kvs =>
    (match jlookup kvs "courses" with
     | none => true
     | some (.arr cs) => cs.all WFcourse
     | some _ => false) &&
    WFsection (jlookup kvs "university_groups") &&
    WFsection (jlookup kvs "research") &&
    WFsection (jlookup kvs "individual_impacts") &&
    (match jlookup kvs "events" with
     | none => true
     | some ev => WFevents year ev)
  | _ => false

theorem metricsContribution_ok (kvs : List (String × JValue))
    (h : (match jlookup kvs "metrics" with
          | none => true
          | some (.obj ms) =>
            (match jlookup ms "completed" with
             | none => true
             | some v => isNumB v)
          | some _ => false) = true) :
    ∃ n, metricsContribution (.obj kvs) = .ok n := by
  cases hm : jlookup kvs "metrics" with
  | none =>
    exact ⟨0, by simp [metricsContribution, pyContains, pyIndexStr, hm,
      exc_ok_bind, exc_err_bind, exc_pure_bind, exc_fmap_ok, exc_fmap_err, exc_pure_eq_ok]⟩
  | some m =>
    rw [hm] at h
    cases m with
    | obj ms =>
      cases hcd : jlookup ms "completed" with
      | none =>
        exact ⟨0, by simp [metricsContribution, pyContains, pyIndexStr, hm, hcd,
          exc_ok_bind, exc_err_bind, exc_pure_bind, exc_fmap_ok, exc_fmap_err, exc_pure_eq_ok]⟩
      | some v =>
        simp only [hcd] at h
        cases v <;> simp_all [isNumB]
        case num n =>
          exact ⟨n, by simp [metricsContribution, pyContains, pyIndexStr, pyToInt, hm, hcd,
            exc_ok_bind, exc_err_bind, exc_pure_bind, exc_fmap_ok, exc_fmap_err, exc_pure_eq_ok]⟩
    | null => simp at h
    | bool b => simp at h
    | num n => simp at h
    | str s => simp at h
    | arr xs => simp at h

theorem courseParticipants_ok (c : JValue) (h : WFcourse c = true) :
    ∃ n, courseParticipants c = .ok n := by
  cases c with
  | obj kvs =>
    simp only [WFcourse, Bool.and_eq_true] at h
    obtain ⟨h1, h2⟩ := h
    obtain ⟨a, ha⟩ := completionContribution_ok kvs h1
    obtain ⟨b, hb⟩ := metricsContribution_ok kvs h2
    exact ⟨a + b, by simp [courseParticipants, ha, hb,
      exc_ok_bind, exc_err_bind, exc_pure_bind, exc_fmap_ok, exc_fmap_err, exc_pure_eq_ok]⟩
  | null => simp [WFcourse] at h
  | bool b => simp [WFcourse] at h
  | num n => simp [WFcourse] at h
  | str s => simp [WFcourse] at h
  | arr xs => simp [WFcourse] at h

theorem sum_loop_ok (g : JValue → Except PyErr Int) :
    ∀ (xs : List JValue), (∀ x ∈ xs, ∃ n, g x = .ok n) → ∀ (acc : Int),
      ∃ m, List.foldlM (fun a x => do pure (a + (← g x))) acc xs = .ok m := by
  intro xs
  induction xs with
  | nil => exact fun _ acc => ⟨acc, rfl⟩
  | cons x rest ih =>
    intro H acc
    obtain ⟨n, hn⟩ := H x (by simp)
    obtain ⟨m, hm⟩ := ih (fun y hy => H y (by simp [hy])) (acc + n)
    refine ⟨m, ?_⟩
    simp only [foldlM_exc_cons]
    rw [hn]
    simp only [exc_ok_bind, exc_pure_bind]
    exact hm

theorem sumM_ok (g : JValue → Except PyErr Int) (xs : List JValue)
    (H : ∀ x ∈ xs, ∃ n, g x = .ok n) : ∃ m, sumM g xs = .ok m :=
  sum_loop_ok g xs H 0

theorem WFevent_isObj (e : JValue) (h : WFevent e = true) : isObjB e = true := by
  cases e <;> simp_all [WFevent, isObjB]

theorem all_obj_any_str_false (xs : List JValue) (k : String) (h : xs.all isObjB = true) :
    (xs.any (fun e => match e with | .str s => s == k | _ => false)) = false := by
  induction xs with
  | nil => rfl
  | cons x rest ih =>
    simp only [List.all_cons, Bool.and_eq_true] at h
    obtain ⟨hx, hrest⟩ := h
    cases x with
    | str s => exact Bool.noConfusion hx
    | obj kvs =>
      rw [List.any_cons]
      show (false || _) = false
      rw [Bool.false_or]
      exact ih hrest
    | null =>
      rw [List.any_cons]
      show (false || _) = false
      rw [Bool.false_or]
      exact ih hrest
    | bool b =>
      rw [List.any_cons]
      show (false || _) = false
      rw [Bool.false_or]
      exact ih hrest
    | num n =>
      rw [List.any_cons]
      show (false || _) = false
      rw [Bool.false_or]
      exact ih hrest
    | arr ys =>
      rw [List.any_cons]
      show (false || _) = false
      rw [Bool.false_or]
      exact ih hrest

theorem all_mono (xs : List JValue) (p q : JValue → Bool)
    (hpq : ∀ x, p x = true → q x = true) (h : xs.all p = true) : xs.all q = true := by
  rw [List.all_eq_true] at h ⊢
  exact fun x hx => hpq x (h x hx)

theorem keyedLen_obj_ok (kvs : List (String × JValue)) (k : String)
    (h : optArr (jlookup kvs k) = true) : ∃ n, keyedLen (.obj kvs) k = .ok n := by
  cases hk : jlookup kvs k with
  | none =>
    exact ⟨0, by simp [keyedLen, pyContains, pyIndexStr, hk,
      exc_ok_bind, exc_err_bind, exc_pure_bind, exc_fmap_ok, exc_fmap_err, exc_pure_eq_ok]⟩
  | some v =>
    rw [hk] at h
    cases v <;> simp_all [optArr]
    case arr xs =>
      exact ⟨(xs.length : Int), by simp [keyedLen, pyContains, pyIndexStr, pyLen, hk,
        exc_ok_bind, exc_err_bind, exc_pure_bind, exc_fmap_ok, exc_fmap_err, exc_pure_eq_ok]⟩

theorem keyedLen_arr_of_all_obj (xs : List JValue) (k : String) (h : xs.all isObjB = true) :
    keyedLen (.arr xs) k = .ok 0 :=
  keyedLen_arr_no_match xs k (all_obj_any_str_false xs k h)

theorem structuredEventsCount_obj_ok (kvs : List (String × JValue))
    (hw : optArr (jlookup kvs "workshops") = true)
    (ht : optArr (jlookup kvs "talks") = true)
    (hm : optArr (jlookup kvs "notable_meetups") = true) :
    ∃ n, structuredEventsCount (.obj kvs) = .ok n := by
  obtain ⟨n1, h1⟩ := keyedLen_obj_ok kvs "workshops" hw
  obtain ⟨n2, h2⟩ := keyedLen_obj_ok kvs "talks" ht
  obtain ⟨n3, h3⟩ := keyedLen_obj_ok kvs "notable_meetups" hm
  exact ⟨n1 + n2 + n3, by simp [structuredEventsCount, h1, h2, h3,
    exc_ok_bind, exc_err_bind, exc_pure_bind, exc_fmap_ok, exc_fmap_err, exc_pure_eq_ok]⟩

theorem structuredEventsCount_arr_of_all_obj (xs : List JValue) (h : xs.all isObjB = true) :
    structuredEventsCount (.arr xs) = .ok 0 := by
  have e : structuredEventsCount (.arr xs)
      = keyedLen (.arr xs) "workshops" >>= fun n1 =>
        keyedLen (.arr xs) "talks" >>= fun n2 =>
        keyedLen (.arr xs) "notable_meetups" >>= fun n3 =>
        pure (n1 + n2 + n3) := rfl
  rw [e, keyedLen_arr_of_all_obj xs "workshops" h, exc_ok_bind,
      keyedLen_arr_of_all_obj xs "talks" h, exc_ok_bind,
      keyedLen_arr_of_all_obj xs "notable_meetups" h, exc_ok_bind]
  rfl

theorem retreatParticipants_obj_ok (kvs : List (String × JValue))
    (h : optObj (jlookup kvs "retreat") = true) :
    ∃ n, retreatParticipants (.obj kvs) = .ok n := by
  cases hr : jlookup kvs "retreat" with
  | none =>
    exact ⟨0, by simp [retreatParticipants, pyContains, pyIndexStr, hr,
      exc_ok_bind, exc_err_bind, exc_pure_bind, exc_fmap_ok, exc_fmap_err, exc_pure_eq_ok]⟩
  | some r =>
    rw [hr] at h
    cases r <;> simp_all [optObj]
    case obj rs =>
      cases hp : jlookup rs "participants" with
      | none =>
        exact ⟨0, by simp [retreatParticipants, pyContains, pyIndexStr, hr, hp,
          exc_ok_bind, exc_err_bind, exc_pure_bind, exc_fmap_ok, exc_fmap_err, exc_pure_eq_ok]⟩
      | some p =>
        refine ⟨if strContainsSub "24" (pyStr p) then 24 else 0, ?_⟩
        cases hc : strContainsSub "24" (pyStr p) <;>
          simp [retreatParticipants, pyContains, pyIndexStr, hr, hp, hc,
            exc_ok_bind, exc_err_bind, exc_pure_bind, exc_fmap_ok, exc_fmap_err, exc_pure_eq_ok]

theorem retreatParticipants_arr_of_all_obj (xs : List JValue) (h : xs.all isObjB = true) :
    retreatParticipants (.arr xs) = .ok 0 := by
  have e : retreatParticipants (.arr xs)
      = if (xs.any (fun e => match e with | .str s => s == "retreat" | _ => false))
        then (pyIndexStr (.arr xs) "retreat" >>= fun retreat =>
              pyContains "participants" retreat >>= fun bp =>
              if bp then
                (pyIndexStr retreat "participants" >>= fun p =>
                 if strContainsSub "24" (pyStr p) then pure 24 else pure 0)
              else pure 0)
        else pure 0 := rfl
  rw [e, all_obj_any_str_false xs "retreat" h]
  rfl

theorem flatEventParticipants_obj_ok (kvs : List (String × JValue))
    (h : WFevent (.obj kvs) = true) : ∃ n, flatEventParticipants (.obj kvs) = .ok n := by
  cases hp : jlookup kvs "participants" with
  | none =>
    exact ⟨0, by simp [flatEventParticipants, pyContains, pyIndexStr, hp,
      exc_ok_bind, exc_err_bind, exc_pure_bind, exc_fmap_ok, exc_fmap_err, exc_pure_eq_ok]⟩
  | some p =>
    simp only [WFevent, hp] at h
    cases p <;> simp_all
    case str s =>
      cases hn : firstNumber s with
      | some n =>
        exact ⟨(n : Int), by simp [flatEventParticipants, pyContains, pyIndexStr, hp, hn,
          exc_ok_bind, exc_err_bind, exc_pure_bind, exc_fmap_ok, exc_fmap_err, exc_pure_eq_ok]⟩
      | none =>
        exact ⟨0, by simp [flatEventParticipants, pyContains, pyIndexStr, hp, hn,
          exc_ok_bind, exc_err_bind, exc_pure_bind, exc_fmap_ok, exc_fmap_err, exc_pure_eq_ok]⟩

theorem flatEventParticipants_str_ok (s : String)
    (h : strContainsSub "participants" s = false) :
    flatEventParticipants (.str s) = .ok 0 := by
  simp [flatEventParticipants, pyContains, h,
    exc_ok_bind, exc_err_bind, exc_pure_bind, exc_fmap_ok, exc_fmap_err, exc_pure_eq_ok]

theorem flatEventParticipants_ok_of_WFevent (x : JValue) (h : WFevent x = true) :
    ∃ n, flatEventParticipants x = .ok n := by
  cases x with
  | obj kvs => exact flatEventParticipants_obj_ok kvs h
  | null => exact Bool.noConfusion h
  | bool b => exact Bool.noConfusion h
  | num n => exact Bool.noConfusion h
  | str s => exact Bool.noConfusion h
  | arr ys => exact Bool.noConfusion h

theorem events_ok (year : String) (ev : JValue) (h : WFevents year ev = true) :
    (∃ nS, structuredEventsCount ev = .ok nS) ∧
      (∃ pR, retreatParticipants ev = .ok pR) ∧
      ((year == "2023") = true →
        (∃ nF, pyLen ev = .ok nF) ∧
        (∃ items, pyIter ev = .ok items ∧ ∃ pF, sumM flatEventParticipants items = .ok pF)) := by
  cases ev with
  | arr xs =>
    cases h23 : (year == "2023") with
    | false =>
      simp only [WFevents, h23, if_false] at h
      refine ⟨⟨0, structuredEventsCount_arr_of_all_obj xs h⟩,
        ⟨0, retreatParticipants_arr_of_all_obj xs h⟩, ?_⟩
      intro habs
      exact Bool.noConfusion habs
    | true =>
      simp only [WFevents, h23, if_true] at h
      have hobj : xs.all isObjB = true := all_mono xs WFevent isObjB WFevent_isObj h
      refine ⟨⟨0, structuredEventsCount_arr_of_all_obj xs hobj⟩,
        ⟨0, retreatParticipants_arr_of_all_obj xs hobj⟩,
        fun _ => ⟨⟨(xs.length : Int), rfl⟩, xs, rfl, ?_⟩⟩
      exact sumM_ok _ _ (fun x hx =>
        flatEventParticipants_ok_of_WFevent x ((List.all_eq_true.mp h) x hx))
  | obj kvs =>
    simp only [WFevents, Bool.and_eq_true] at h
    obtain ⟨⟨⟨⟨hw, htk⟩, hnm⟩, hr⟩, hkeys⟩ := h
    refine ⟨structuredEventsCount_obj_ok kvs hw htk hnm,
      retreatParticipants_obj_ok kvs hr, ?_⟩
    intro h23
    have hIt : pyIter (JValue.obj kvs) = .ok (kvs.map (fun kv => JValue.str kv.fst)) := rfl
    refine ⟨⟨(kvs.length : Int), rfl⟩, kvs.map (fun kv => JValue.str kv.fst), hIt, ?_⟩
    have hne : (year != "2023") = false := by simp [bne, h23]
    rw [hne, Bool.false_or] at hkeys
    refine sumM_ok _ _ ?_
    intro x hx
    rcases List.mem_map.mp hx with ⟨kv, hkv, rfl⟩
    have hk := (List.all_eq_true.mp hkeys) kv hkv
    refine ⟨0, flatEventParticipants_str_ok kv.fst ?_⟩
    simpa using hk
  | null => exact Bool.noConfusion h
  | bool b => exact Bool.noConfusion h
  | num n => exact Bool.noConfusion h
  | str s => exact Bool.noConfusion h

theorem calculateYear_ok (year : String) (data : JValue) (h : WFDoc year data = true) :
    ∃ t, calculateYear year data = .ok t := by
  cases data with
  | obj kvs =>
    simp only [WFDoc, Bool.and_eq_true] at h
    obtain ⟨⟨⟨⟨h1, h2⟩, h3⟩, h4⟩, h5⟩ := h
    obtain ⟨cs, hcs, hcsWF⟩ :
        ∃ cs, (jlookup kvs "courses").getD (JValue.arr []) = JValue.arr cs ∧
          cs.all WFcourse = true := by
      cases hc : jlookup kvs "courses" with
      | none => exact ⟨[], rfl, rfl⟩
      | some v =>
        rw [hc] at h1
        cases v with
        | arr cs => exact ⟨cs, rfl, h1⟩
        | null => exact Bool.noConfusion h1
        | bool b => exact Bool.noConfusion h1
        | num n => exact Bool.noConfusion h1
        | str s => exact Bool.noConfusion h1
        | obj o => exact Bool.noConfusion h1
    obtain ⟨us, hus⟩ :
        ∃ us, (jlookup kvs "university_groups").getD (JValue.arr []) = JValue.arr us := by
      cases hu : jlookup kvs "university_groups" with
      | none => exact ⟨[], rfl⟩
      | some v =>
        rw [hu] at h2
        cases v with
        | arr us => exact ⟨us, rfl⟩
        | null => exact Bool.noConfusion h2
        | bool b => exact Bool.noConfusion h2
        | num n => exact Bool.noConfusion h2
        | str s => exact Bool.noConfusion h2
        | obj o => exact Bool.noConfusion h2
    obtain ⟨rs, hrs⟩ :
        ∃ rs, (jlookup kvs "research").getD (JValue.arr []) = JValue.arr rs := by
      cases hu : jlookup kvs "research" with
      | none => exact ⟨[], rfl⟩
      | some v =>
        rw [hu] at h3
        cases v with
        | arr rs => exact ⟨rs, rfl⟩
        | null => exact Bool.noConfusion h3
        | bool b => exact Bool.noConfusion h3
        | num n => exact Bool.noConfusion h3
        | str s => exact Bool.noConfusion h3
        | obj o => exact Bool.noConfusion h3
    obtain ⟨is, his⟩ :
        ∃ is, (jlookup kvs "individual_impacts").getD (JValue.arr []) = JValue.arr is := by
      cases hu : jlookup kvs "individual_impacts" with
      | none => exact ⟨[], rfl⟩
      | some v =>
        rw [hu] at h4
        cases v with
        | arr is => exact ⟨is, rfl⟩
        | null => exact Bool.noConfusion h4
        | bool b => exact Bool.noConfusion h4
        | num n => exact Bool.noConfusion h4
        | str s => exact Bool.noConfusion h4
        | obj o => exact Bool.noConfusion h4
    obtain ⟨m, hm⟩ : ∃ m, sumM courseParticipants cs = .ok m :=
      sumM_ok _ _ (fun x hx => courseParticipants_ok x ((List.all_eq_true.mp hcsWF) x hx))
    have g1 : pyGet (JValue.obj kvs) "courses" (JValue.arr []) = .ok (JValue.arr cs) := by
      show Except.ok ((jlookup kvs "courses").getD (JValue.arr [])) = _
      rw [hcs]
    have g2 : pyGet (JValue.obj kvs) "university_groups" (JValue.arr [])
        = .ok (JValue.arr us) := by
      show Except.ok ((jlookup kvs "university_groups").getD (JValue.arr [])) = _
      rw [hus]
    have g3 : pyGet (JValue.obj kvs) "research" (JValue.arr []) = .ok (JValue.arr rs) := by
      show Except.ok ((jlookup kvs "research").getD (JValue.arr [])) = _
      rw [hrs]
    have g4 : pyGet (JValue.obj kvs) "individual_impacts" (JValue.arr [])
        = .ok (JValue.arr is) := by
      show Except.ok ((jlookup kvs "individual_impacts").getD (JValue.arr [])) = _
      rw [his]
    have pl1 : pyLen (JValue.arr cs) = .ok (cs.length : Int) := rfl
    have pl2 : pyLen (JValue.arr us) = .ok (us.length : Int) := rfl
    have pl3 : pyLen (JValue.arr rs) = .ok (rs.length : Int) := rfl
    have pl4 : pyLen (JValue.arr is) = .ok (is.length : Int) := rfl
    have pi1 : pyIter (JValue.arr cs) = .ok cs := rfl
    cases hev : jlookup kvs "events" with
    | none =>
      have g5 : pyGet (JValue.obj kvs) "events" (JValue.obj []) = .ok (JValue.obj []) := by
        show Except.ok ((jlookup kvs "events").getD (JValue.obj [])) = _
        rw [hev]
        rfl
      have g6 : pyGet (JValue.obj kvs) "events" (JValue.arr []) = .ok (JValue.arr []) := by
        show Except.ok ((jlookup kvs "events").getD (JValue.arr [])) = _
        rw [hev]
        rfl
      have s5 : structuredEventsCount (JValue.obj []) = .ok (0 + 0 + 0) := rfl
      have r5 : retreatParticipants (JValue.obj []) = .ok 0 := rfl
      have f5 : sumM flatEventParticipants ([] : List JValue) = .ok 0 := rfl
      by_cases h23 : year = "2023"
      · subst h23
        simp [calculateYear, g1, g2, g3, g4, g5, g6, hm, s5, r5, f5, pyLen, pyIter,
          exc_ok_bind, exc_err_bind, exc_pure_bind, exc_fmap_ok, exc_fmap_err, exc_pure_eq_ok]
      · have hb23 : (year == "2023") = false := by
          cases hb : (year == "2023") with
          | false => rfl
          | true => exact absurd (eq_of_beq hb) h23
        by_cases h24 : year = "2024"
        · subst h24
          simp [calculateYear, g1, g2, g3, g4, g5, g6, hm, s5, r5, f5, pyLen, pyIter,
            exc_ok_bind, exc_err_bind, exc_pure_bind, exc_fmap_ok, exc_fmap_err, exc_pure_eq_ok]
        · have hb24 : (year == "2024") = false := by
            cases hb : (year == "2024") with
            | false => rfl
            | true => exact absurd (eq_of_beq hb) h24
          simp [calculateYear, g1, g2, g3, g4, g5, g6, hm, s5, r5, f5, hb23, hb24, pyLen, pyIter,
            exc_ok_bind, exc_err_bind, exc_pure_bind, exc_fmap_ok, exc_fmap_err, exc_pure_eq_ok]
    | some ev =>
      rw [hev] at h5
      obtain ⟨⟨nS, hS⟩, ⟨pR, hR⟩, hflat⟩ := events_ok year ev h5
      have g5 : pyGet (JValue.obj kvs) "events" (JValue.obj []) = .ok ev := by
        show Except.ok ((jlookup kvs "events").getD (JValue.obj [])) = _
        rw [hev]
        rfl
      have g6 : pyGet (JValue.obj kvs) "events" (JValue.arr []) = .ok ev := by
        show Except.ok ((jlookup kvs "events").getD (JValue.arr [])) = _
        rw [hev]
        rfl
      by_cases h23 : year = "2023"
      · subst h23
        obtain ⟨⟨nF, hF⟩, items, hIt, pF, hPF⟩ := hflat rfl
        simp [calculateYear, g1, g2, g3, g4, g5, g6, hm, hS, hR, hF, hIt, hPF,
          pl1, pl2, pl3, pl4, pi1,
          exc_ok_bind, exc_err_bind, exc_pure_bind, exc_fmap_ok, exc_fmap_err, exc_pure_eq_ok]
      · have hb23 : (year == "2023") = false := by
          cases hb : (year == "2023") with
          | false => rfl
          | true => exact absurd (eq_of_beq hb) h23
        by_cases h24 : year = "2024"
        · subst h24
          simp [calculateYear, g1, g2, g3, g4, g5, g6, hm, hS, hR,
            pl1, pl2, pl3, pl4, pi1,
            exc_ok_bind, exc_err_bind, exc_pure_bind, exc_fmap_ok, exc_fmap_err, exc_pure_eq_ok]
        · have hb24 : (year == "2024") = false := by
            cases hb : (year == "2024") with
            | false => rfl
            | true => exact absurd (eq_of_beq hb) h24
          simp [calculateYear, g1, g2, g3, g4, g5, g6, hm, hS, hR, hb23, hb24,
            pl1, pl2, pl3, pl4, pi1,
            exc_ok_bind, exc_err_bind, exc_pure_bind, exc_fmap_ok, exc_fmap_err, exc_pure_eq_ok]
  | null => exact Bool.noConfusion h
  | bool b => exact Bool.noConfusion h
  | num n => exact Bool.noConfusion h
  | str s => exact Bool.noConfusion h
  | arr xs => exact Bool.noConfusion h

def yearUsable (store : String → LoadResult) (y : String) : Bool :=
  match (load_year_data store y).fst with
  | none => true
  | some d => pyFalsy d || WFDoc y d

theorem yearContribution_ok (store : String → LoadResult) (y : String)
    (h : yearUsable store y = true) : ∃ t, yearContribution store y = .ok t := by
  cases hl : (load_year_data store y).fst with
  | none => exact ⟨Totals.zero, by simp [yearContribution, hl]⟩
  | some d =>
    simp only [yearUsable, hl] at h
    cases hf : pyFalsy d with
    | true => exact ⟨Totals.zero, by simp [yearContribution, hl, hf]⟩
    | false =>
      rw [hf, Bool.false_or] at h
      obtain ⟨t, ht⟩ := calculateYear_ok y d h
      exact ⟨t, by simp [yearContribution, hl, hf, ht]⟩

theorem agg_ok_aux (store : String → LoadResult) :
    ∀ (ys : List String), (∀ y ∈ ys, yearUsable store y = true) → ∀ (acc : Totals),
      ∃ t, List.foldlM (fun a z => do pure (a + (← yearContribution store z))) acc ys
        = .ok t := by
  intro ys
  induction ys with
  | nil => exact fun _ acc => ⟨acc, rfl⟩
  | cons z rest ih =>
    intro H acc
    obtain ⟨t, ht⟩ := yearContribution_ok store z (H z (by simp))
    obtain ⟨r, hr⟩ := ih (fun y hy => H y (by simp [hy])) (acc + t)
    refine ⟨r, ?_⟩
    simp only [foldlM_exc_cons]
    rw [ht]
    simp only [exc_ok_bind, exc_pure_bind]
    exact hr

/-- Claim C3 (counterexample): the aggregator is not total — a year
document that parses to the non-empty array `[1]` is truthy, and
`data.get("courses", [])` on a list raises `AttributeError`, so the
aggregation returns an error instead of a Totals record. -/
theorem aggregator_can_raise :
    calculate_metrics_over (fun _ => LoadResult.ok (JValue.arr [JValue.num 1])) ["2023"]
      = .error .attributeError := rfl

/-- Claim C3 (amended): the aggregation runs to completion and returns
a Totals record whenever every year's document is absent, falsy, or a
well-shaped mapping (sections that are present are lists, course
fields are numbers, events have the per-year expected shape); missing
keys, missing years and unparsable participant strings contribute
zero inside that guarantee. -/
theorem aggregator_total_on_usable (store : String → LoadResult) (years : List String)
    (h : ∀ y ∈ years, yearUsable store y = true) :
    ∃ t, calculate_metrics_over store years = .ok t :=
  agg_ok_aux store years h Totals.zero

theorem aggregator_total_on_usable_witness :
    ∃ t, calculate_metrics_over
        (fun _ => LoadResult.ok
          (JValue.obj [("courses", JValue.arr
            [JValue.obj [("completion", JValue.obj [("total_completed", JValue.num 5)])]])]))
        ["2023", "2024", "2025"] = .ok t :=
  aggregator_total_on_usable
    (fun _ => LoadResult.ok
      (JValue.obj [("courses", JValue.arr
        [JValue.obj [("completion", JValue.obj [("total_completed", JValue.num 5)])]])]))
    ["2023", "2024", "2025"] (by decide)

/-- The length of the list under key `k`, 0 when the key is absent. -/
def keyLenVal (kvs : List (String × JValue)) (k : String) : Int :=
  match jlookup kvs k with
  | some (.arr xs) => (xs.length : Int)
  | _ => 0

/-- The claim's mapping rule: `count(events.workshops) +
count(events.talks) + count(events.notable_meetups)`, read off a
mapping-shaped events value (0 for any other shape). -/
def mappingRuleCount (ev : JValue) : Int :=
  match ev with
  | .obj kvs => keyLenVal kvs "workshops" + keyLenVal kvs "talks"
      + keyLenVal kvs "notable_meetups"
  | _ => 0

/-- The year-2023 flat rule of the code: `len(events)` whatever the
shape of the events value, applied only when the year is `"2023"`. -/
def flatRuleCount (year : String) (ev : JValue) : Int :=
  if year == "2023" then
    (match ev with
     | .arr xs => (xs.length : Int)
     | .obj kvs => (kvs.length : Int)
     | _ => 0)
  else 0

theorem keyedLen_obj_val (kvs : List (String × JValue)) (k : String)
    (h : optArr (jlookup kvs k) = true) :
    keyedLen (.obj kvs) k = .ok (keyLenVal kvs k) := by
  cases hk : jlookup kvs k with
  | none =>
    simp [keyedLen, keyLenVal, pyContains, hk,
      exc_ok_bind, exc_err_bind, exc_pure_bind, exc_fmap_ok, exc_fmap_err, exc_pure_eq_ok]
  | some v =>
    rw [hk] at h
    cases v with
    | arr xs =>
      simp [keyedLen, keyLenVal, pyContains, pyIndexStr, pyLen, hk,
        exc_ok_bind, exc_err_bind, exc_pure_bind, exc_fmap_ok, exc_fmap_err, exc_pure_eq_ok]
    | null => exact Bool.noConfusion h
    | bool b => exact Bool.noConfusion h
    | num n => exact Bool.noConfusion h
    | str s => exact Bool.noConfusion h
    | obj o => exact Bool.noConfusion h

theorem structuredEventsCount_obj_val (kvs : List (String × JValue))
    (hw : optArr (jlookup kvs "workshops") = true)
    (ht : optArr (jlookup kvs "talks") = true)
    (hm : optArr (jlookup kvs "notable_meetups") = true) :
    structuredEventsCount (.obj kvs)
      = .ok (keyLenVal kvs "workshops" + keyLenVal kvs "talks"
          + keyLenVal kvs "notable_meetups") := by
  have e : structuredEventsCount (.obj kvs)
      = keyedLen (.obj kvs) "workshops" >>= fun n1 =>
        keyedLen (.obj kvs) "talks" >>= fun n2 =>
        keyedLen (.obj kvs) "notable_meetups" >>= fun n3 =>
        pure (n1 + n2 + n3) := rfl
  rw [e, keyedLen_obj_val kvs "workshops" hw, exc_ok_bind,
      keyedLen_obj_val kvs "talks" ht, exc_ok_bind,
      keyedLen_obj_val kvs "notable_meetups" hm, exc_ok_bind]
  rfl

/-- Claim C9 (counterexample): for the year `"2023"` with a
mapping-shaped events value holding one workshop, BOTH counting rules
fire — `count(workshops) = 1` plus `len(events) = 1` — so
`total_workshops_events` is 2, while the claim (exactly one rule per
year) predicts 1. -/
theorem both_events_rules_fire :
    calculate_metrics_over
        (fun y => if y == "2023"
          then .ok (.obj [("events", .obj [("workshops", .arr [.obj []])])])
          else .notFound) ["2023"]
      = .ok ⟨0, 0, 0, 2, 0, 0⟩ ∧ (2 : Int) ≠ 1 :=
  ⟨rfl, by decide⟩

/-- Claim C9 (amended): the two events-counting rules are not
mutually exclusive and are not both selected by the year identifier
alone: every year adds the mapping rule count (selected by inspecting
the content for the three keys), and the year `"2023"` additionally
adds the length of its events value whatever its shape, so a 2023
document with mapping-shaped events receives both contributions. -/
theorem events_counting_decomposition (year : String) (ev : JValue)
    (h : WFevents year ev = true) :
    (calculateYear year (.obj [("events", ev)])).map (fun t => t.total_workshops_events)
      = .ok (mappingRuleCount ev + flatRuleCount year ev) := by
  obtain ⟨⟨nS, hS⟩, ⟨pR, hR⟩, hflat⟩ := events_ok year ev h
  have sc : sumM courseParticipants ([] : List JValue) = .ok 0 := rfl
  by_cases h23 : year = "2023"
  · subst h23
    obtain ⟨⟨nF, hF⟩, items, hIt, pF, hPF⟩ := hflat rfl
    cases ev with
    | arr xs =>
      simp only [WFevents, if_true] at h
      have hS0 : structuredEventsCount (JValue.arr xs) = .ok 0 :=
        structuredEventsCount_arr_of_all_obj xs
          (all_mono xs WFevent isObjB WFevent_isObj (by simpa using h))
      have hxs : xs = items := Except.ok.inj hIt
      subst hxs
      simp [calculateYear, pyGet, jlookup, pyLen, pyIter, hS0, hR, hPF, sc, exc_map_ok,
        mappingRuleCount, flatRuleCount,
        exc_ok_bind, exc_err_bind, exc_pure_bind, exc_fmap_ok, exc_fmap_err, exc_pure_eq_ok]
    | obj kvs =>
      simp only [WFevents, Bool.and_eq_true] at h
      obtain ⟨⟨⟨⟨hw, htk⟩, hnm⟩, hr⟩, hkeys⟩ := h
      have hSv := structuredEventsCount_obj_val kvs hw htk hnm
      have hks : kvs.map (fun kv => JValue.str kv.fst) = items := Except.ok.inj hIt
      simp [calculateYear, pyGet, jlookup, pyLen, pyIter, hSv, hR, hks, hPF, sc, exc_map_ok,
        mappingRuleCount, flatRuleCount, keyLenVal,
        exc_ok_bind, exc_err_bind, exc_pure_bind, exc_fmap_ok, exc_fmap_err, exc_pure_eq_ok]
    | null => exact Bool.noConfusion h
    | bool b => exact Bool.noConfusion h
    | num n => exact Bool.noConfusion h
    | str s => exact Bool.noConfusion h
  · have hb23 : (year == "2023") = false := by
      cases hb : (year == "2023") with
      | false => rfl
      | true => exact absurd (eq_of_beq hb) h23
    by_cases h24 : year = "2024"
    · subst h24
      cases ev with
      | arr xs =>
        have hS0 : structuredEventsCount (JValue.arr xs) = .ok 0 :=
          structuredEventsCount_arr_of_all_obj xs (by simpa [WFevents] using h)
        simp [calculateYear, pyGet, jlookup, pyLen, pyIter, hS0, hR, sc, exc_map_ok,
          mappingRuleCount, flatRuleCount,
          exc_ok_bind, exc_err_bind, exc_pure_bind, exc_fmap_ok, exc_fmap_err, exc_pure_eq_ok]
      | obj kvs =>
        simp only [WFevents, Bool.and_eq_true] at h
        obtain ⟨⟨⟨⟨hw, htk⟩, hnm⟩, hr⟩, hkeys⟩ := h
        have hSv := structuredEventsCount_obj_val kvs hw htk hnm
        simp [calculateYear, pyGet, jlookup, pyLen, pyIter, hSv, hR, sc, exc_map_ok,
          mappingRuleCount, flatRuleCount, keyLenVal,
          exc_ok_bind, exc_err_bind, exc_pure_bind, exc_fmap_ok, exc_fmap_err, exc_pure_eq_ok]
      | null => exact Bool.noConfusion h
      | bool b => exact Bool.noConfusion h
      | num n => exact Bool.noConfusion h
      | str s => exact Bool.noConfusion h
    · have hb24 : (year == "2024") = false := by
        cases hb : (year == "2024") with
        | false => rfl
        | true => exact absurd (eq_of_beq hb) h24
      cases ev with
      | arr xs =>
        have hS0 : structuredEventsCount (JValue.arr xs) = .ok 0 :=
          structuredEventsCount_arr_of_all_obj xs (by simpa [WFevents, hb23] using h)
        simp [calculateYear, pyGet, jlookup, pyLen, pyIter, hS0, hb23, hb24, sc, exc_map_ok,
          mappingRuleCount, flatRuleCount,
          exc_ok_bind, exc_err_bind, exc_pure_bind, exc_fmap_ok, exc_fmap_err, exc_pure_eq_ok]
      | obj kvs =>
        simp only [WFevents, Bool.and_eq_true] at h
        obtain ⟨⟨⟨⟨hw, htk⟩, hnm⟩, hr⟩, hkeys⟩ := h
        have hSv := structuredEventsCount_obj_val kvs hw htk hnm
        simp [calculateYear, pyGet, jlookup, pyLen, pyIter, hSv, hb23, hb24, sc, exc_map_ok,
          mappingRuleCount, flatRuleCount, keyLenVal,
          exc_ok_bind, exc_err_bind, exc_pure_bind, exc_fmap_ok, exc_fmap_err, exc_pure_eq_ok]
      | null => exact Bool.noConfusion h
      | bool b => exact Bool.noConfusion h
      | num n => exact Bool.noConfusion h
      | str s => exact Bool.noConfusion h

theorem events_counting_decomposition_witness :
    (calculateYear "2023"
        (.obj [("events", .obj [("workshops", .arr [.obj []])])])).map
        (fun t => t.total_workshops_events)
      = .ok 2 :=
  events_counting_decomposition "2023" (.obj [("workshops", .arr [.obj []])]) (by decide)
